import Mathlib

/-!
# Shape editor (Qt / VTK, model-view-controller)

A shallow embedding of the repository's own code:

* `model.cpp`       the nine shape classes and their `createShape`,
* `controller.cpp`  `ShapeController::createShape`,
* `boxWidgetCallback.h`  `BoxWidgetCallback::Execute`,
* `widget.cpp`      the slots of `Widget`.

Conventions.  A C++ `double` is an exact rational (`ℚ`); rounding of the
floating-point unit is not modelled.  A `vtkSmartPointer<T>` is an `Option`
(`none` is the null pointer).  A `QString` is a `String`.  Objects created with
`New()` carry a fresh number as their identity.  Rendering calls
(`Render`, `ResetCamera`, camera moves, background colour) have no effect on
the state described here and are left out.
-/

namespace ShapeEditor

/-! ## Geometry data -/

/-- Three doubles: a point, a scale triple or an RGB colour. -/
structure Vec3 where
  x : ℚ
  y : ℚ
  z : ℚ
  deriving DecidableEq

/-- An affine map (`vtkTransform`): three matrix rows and a translation. -/
structure Transform where
  r0 : Vec3
  r1 : Vec3
  r2 : Vec3
  t : Vec3
  deriving DecidableEq

/-- Dot product of two triples. -/
def Vec3.dot (a b : Vec3) : ℚ := a.x * b.x + a.y * b.y + a.z * b.z

/-- Apply an affine map to a point (`vtkTransform::TransformPoint`). -/
def Transform.apply (T : Transform) (p : Vec3) : Vec3 :=
  ⟨T.r0.dot p + T.t.x, T.r1.dot p + T.t.y, T.r2.dot p + T.t.z⟩

/-- The identity transform. -/
def Transform.identity : Transform :=
  ⟨⟨1, 0, 0⟩, ⟨0, 1, 0⟩, ⟨0, 0, 1⟩, ⟨0, 0, 0⟩⟩

/-- Composition of affine maps (`A` after `B`), as `vtkTransform::Concatenate`. -/
def Transform.comp (A B : Transform) : Transform :=
  ⟨⟨A.r0.x * B.r0.x + A.r0.y * B.r1.x + A.r0.z * B.r2.x,
    A.r0.x * B.r0.y + A.r0.y * B.r1.y + A.r0.z * B.r2.y,
    A.r0.x * B.r0.z + A.r0.y * B.r1.z + A.r0.z * B.r2.z⟩,
   ⟨A.r1.x * B.r0.x + A.r1.y * B.r1.x + A.r1.z * B.r2.x,
    A.r1.x * B.r0.y + A.r1.y * B.r1.y + A.r1.z * B.r2.y,
    A.r1.x * B.r0.z + A.r1.y * B.r1.z + A.r1.z * B.r2.z⟩,
   ⟨A.r2.x * B.r0.x + A.r2.y * B.r1.x + A.r2.z * B.r2.x,
    A.r2.x * B.r0.y + A.r2.y * B.r1.y + A.r2.z * B.r2.y,
    A.r2.x * B.r0.z + A.r2.y * B.r1.z + A.r2.z * B.r2.z⟩,
   A.apply B.t⟩

/-- The quarter turn about the Y axis (right-handed, 90 degrees):
(x, y, z) goes to (z, y, -x). -/
def quarterTurnY : Transform :=
  ⟨⟨0, 0, 1⟩, ⟨0, 1, 0⟩, ⟨-1, 0, 0⟩, ⟨0, 0, 0⟩⟩

/-- A pipeline of the graphics library that generates a mesh: the source or
filter object and the parameters the repository sets on it.  The points it
produces are computed by the library. -/
inductive Source where
  | cubeSource (xLength yLength zLength : ℚ)
  | sphereSource (radius startTheta endTheta : ℚ) (phiResolution thetaResolution : Nat)
  | coneSource (angle : ℚ) (resolution : Nat)
  | cylinderSource (radius height : ℚ) (resolution : Nat)
  | lineTube (point1 point2 : Vec3) (radius : ℚ) (numberOfSides : Nat)
  | parametricTorus (ringRadius crossSectionRadius : ℚ)
  | splineTube (points : List Vec3) (uResolution : Nat) (radius : ℚ) (numberOfSides : Nat)
  | stlReader (fileName : String)
  deriving DecidableEq

/-- The input of a `vtkPolyDataMapper`. -/
inductive PolyData where
  /-- output of a library source or filter pipeline -/
  | generated (src : Source)
  /-- a `vtkPolyData` assembled by hand from points and polygon cells -/
  | explicit (points : List Vec3) (polys : List (List Nat))
  /-- output of a `vtkTransformPolyDataFilter` -/
  | transformed (T : Transform) (input : PolyData)
  deriving DecidableEq

/-- The points of a mesh; `tess` is the library's tessellation of a source. -/
def PolyData.points (tess : Source → List Vec3) : PolyData → List Vec3
  | .generated src => tess src
  | .explicit pts _ => pts
  | .transformed T input => (PolyData.points tess input).map T.apply

/-- A `vtkPolyDataMapper`, reduced to its input. -/
structure PolyDataMapper where
  input : PolyData
  deriving DecidableEq

/-! ## model.cpp: the shape classes -/

/-- A `Cube` object. -/
structure Cube where
  xLength : ℚ
  yLength : ℚ
  zLength : ℚ

/-- A `Sphere` object. -/
structure Sphere where
  radius : ℚ

/-- A `Hemisphere` object. -/
structure Hemisphere where
  radius : ℚ

/-- A `Cone` object. -/
structure Cone where
  angle : ℚ

/-- A `Pyramid` object. -/
structure Pyramid where
  baseLength : ℚ
  height : ℚ

/-- A `Cylinder` object. -/
structure Cylinder where
  radius : ℚ
  height : ℚ

/-- A `Tube` object. -/
structure Tube where
  radius : ℚ
  length : ℚ

/-- A `Doughnut` object. -/
structure Doughnut where
  radius : ℚ
  height : ℚ

/-- A `CurvedCylinder` object. -/
structure CurvedCylinder where
  radius : ℚ

/-- Method `Cube::createShape`. -/
def Cube.createShape (c : Cube) : PolyDataMapper :=
  ⟨.generated (.cubeSource c.xLength c.yLength c.zLength)⟩

/-- Method `Sphere::createShape`; the source's theta range is the library default 0..360. -/
def Sphere.createShape (s : Sphere) : PolyDataMapper :=
  ⟨.generated (.sphereSource s.radius 0 360 100 100)⟩

/-- Method `Hemisphere::createShape`. -/
def Hemisphere.createShape (h : Hemisphere) : PolyDataMapper :=
  ⟨.generated (.sphereSource h.radius 0 180 100 100)⟩

/-- Method `Cone::createShape`. -/
def Cone.createShape (c : Cone) : PolyDataMapper :=
  ⟨.generated (.coneSource c.angle 100)⟩

/-- The five points inserted by `Pyramid::createShape`. -/
def Pyramid.points (p : Pyramid) : List Vec3 :=
  [⟨0, 0, 0⟩, ⟨p.baseLength, 0, 0⟩, ⟨p.baseLength, p.baseLength, 0⟩,
   ⟨0, p.baseLength, 0⟩, ⟨p.baseLength / 2, p.baseLength / 2, p.height⟩]

/-- The five cells inserted by `Pyramid::createShape`. -/
def Pyramid.cells : List (List Nat) :=
  [[0, 1, 4], [1, 2, 4], [2, 3, 4], [3, 0, 4], [0, 1, 2, 3]]

/-- Method `Pyramid::createShape`. -/
def Pyramid.createShape (p : Pyramid) : PolyDataMapper :=
  ⟨.explicit p.points Pyramid.cells⟩

/-- Method `Cylinder::createShape`. -/
def Cylinder.createShape (c : Cylinder) : PolyDataMapper :=
  ⟨.generated (.cylinderSource c.radius c.height 50)⟩

/-- Method `Tube::createShape`. -/
def Tube.createShape (t : Tube) : PolyDataMapper :=
  ⟨.generated (.lineTube ⟨0, 0, 0⟩ ⟨0, t.length, 0⟩ t.radius 50)⟩

/-- Method `Doughnut::createShape`. -/
def Doughnut.createShape (d : Doughnut) : PolyDataMapper :=
  ⟨.generated (.parametricTorus d.radius d.height)⟩

/-- Method `CurvedCylinder::createShape`; the tube radius is the literal 0.1, the
member `radius` is not used. -/
def CurvedCylinder.createShape (_c : CurvedCylinder) : PolyDataMapper :=
  ⟨.generated (.splineTube [⟨0, 0, 0⟩, ⟨1, 1, 2⟩, ⟨2, 2, 0⟩] 50 (1 / 10) 50)⟩

/-! ## controller.cpp -/

/-- Method `ShapeController::createShape`. -/
def ShapeController.createShape (shapeType : String) : Option PolyDataMapper :=
  if shapeType = "Cube" then some (Cube.createShape ⟨30, 40, 50⟩)
  else if shapeType = "Sphere" then some (Sphere.createShape ⟨5⟩)
  else if shapeType = "Hemisphere" then some (Hemisphere.createShape ⟨5⟩)
  else if shapeType = "Cone" then some (Cone.createShape ⟨30⟩)
  else if shapeType = "Pyramid" then some (Pyramid.createShape ⟨4, 15⟩)
  else if shapeType = "Cylinder" then some (Cylinder.createShape ⟨5, 20⟩)
  else if shapeType = "Tube" then some (Tube.createShape ⟨2, 5⟩)
  else if shapeType = "Doughnut" then some (Doughnut.createShape ⟨6, 3⟩)
  else if shapeType = "Curved Cylinder" then some (CurvedCylinder.createShape ⟨5⟩)
  else none

/-- The nine shape names of the controller. -/
def shapeNames : List String :=
  ["Cube", "Sphere", "Hemisphere", "Cone", "Pyramid", "Cylinder", "Tube", "Doughnut",
   "Curved Cylinder"]

/-! ## The actor (`vtkActor`) -/

/-- A `vtkActor` as this program uses it.  Only rotations about the Y axis are
ever applied (`RotateY`), so the orientation is the net angle about Y in
degrees; two angles that differ by a multiple of 360 are the same orientation. -/
structure Actor where
  /-- identity of the object (its address) -/
  id : Nat
  mapper : PolyDataMapper
  position : Vec3
  scale : Vec3
  /-- net rotation about the Y axis, in degrees -/
  rotationY : Int
  /-- value of `GetProperty()->GetColor` -/
  color : Vec3
  opacity : ℚ
  deriving DecidableEq

/-- The call `vtkSmartPointer<vtkActor>::New()` followed by `SetMapper`: a new actor
with the library defaults (position 0, scale 1, no rotation, white, opaque). -/
def Actor.new (id : Nat) (mapper : PolyDataMapper) : Actor :=
  { id := id, mapper := mapper, position := ⟨0, 0, 0⟩, scale := ⟨1, 1, 1⟩,
    rotationY := 0, color := ⟨1, 1, 1⟩, opacity := 1 }

/-- Library call `vtkProp3D::RotateY(angle)`: concatenates a rotation about Y onto the
current orientation. -/
def Actor.RotateY (angle : Int) (a : Actor) : Actor :=
  { a with rotationY := a.rotationY + angle }

/-- Library call `vtkProp3D::SetScale(x, y, z)`. -/
def Actor.SetScale (x y z : ℚ) (a : Actor) : Actor :=
  { a with scale := ⟨x, y, z⟩ }

/-- Library call `vtkProp3D::SetPosition(pos)`. -/
def Actor.SetPosition (pos : Vec3) (a : Actor) : Actor :=
  { a with position := pos }

/-- Library call `vtkProperty::SetColor(rgb)`. -/
def Actor.SetColor (rgb : Vec3) (a : Actor) : Actor :=
  { a with color := rgb }

/-- Library call `vtkProperty::SetOpacity(opacity)`; the library clamps the value
to [0, 1]. -/
def Actor.SetOpacity (opacity : ℚ) (a : Actor) : Actor :=
  { a with opacity := max 0 (min opacity 1) }

/-- Matrix of a rotation about Y by `deg` degrees, for the angles at which it
is rational (multiples of 90); `none` for every other angle. -/
def rotationYMatrix (deg : Int) : Option Transform :=
  if deg % 360 = 0 then some ⟨⟨1, 0, 0⟩, ⟨0, 1, 0⟩, ⟨0, 0, 1⟩, ⟨0, 0, 0⟩⟩
  else if deg % 360 = 90 then some ⟨⟨0, 0, 1⟩, ⟨0, 1, 0⟩, ⟨-1, 0, 0⟩, ⟨0, 0, 0⟩⟩
  else if deg % 360 = 180 then some ⟨⟨-1, 0, 0⟩, ⟨0, 1, 0⟩, ⟨0, 0, -1⟩, ⟨0, 0, 0⟩⟩
  else if deg % 360 = 270 then some ⟨⟨0, 0, -1⟩, ⟨0, 1, 0⟩, ⟨1, 0, 0⟩, ⟨0, 0, 0⟩⟩
  else none

/-- Scale the rows of a rotation by the actor's scale and add its position:
translate(position) after rotate after scale. -/
def composeMatrix (position scale : Vec3) (R : Transform) : Transform :=
  ⟨⟨R.r0.x * scale.x, R.r0.y * scale.y, R.r0.z * scale.z⟩,
   ⟨R.r1.x * scale.x, R.r1.y * scale.y, R.r1.z * scale.z⟩,
   ⟨R.r2.x * scale.x, R.r2.y * scale.y, R.r2.z * scale.z⟩,
   position⟩

/-- Method `vtkProp3D::GetMatrix`: the model-to-world map of the actor (its origin is
never moved from 0): scale, then rotate, then translate by the position.
Defined where the rotation matrix is rational. -/
def Actor.GetMatrix (a : Actor) : Option Transform :=
  (rotationYMatrix a.rotationY).map (composeMatrix a.position a.scale)

/-- World-space points of the actor's mesh: its matrix applied to the points of
its mapper's input. -/
def Actor.worldPoints (tess : Source → List Vec3) (a : Actor) : Option (List Vec3) :=
  a.GetMatrix.map fun M => (a.mapper.input.points tess).map M.apply

/-! ## boxWidgetCallback.h -/

/-- Method `BoxWidgetCallback::Execute` on the callback's actor, `T` being the
transform read from the box representation (`boxRep->GetTransform(t)`): the
mapper's input is replaced by the output of a transform filter over it. -/
def BoxWidgetCallback.Execute (T : Transform) (a : Actor) : Actor :=
  { a with mapper := ⟨.transformed T a.mapper.input⟩ }

/-! ## widget.cpp -/

/-- Values of the nine sliders of the form. -/
structure Sliders where
  rotateSlider : Int
  scaleSlider : Int
  opacitySlider : Int
  redColorSlider : Int
  greenColorSlider : Int
  blueColorSlider : Int
  xTranslateSlider : Int
  yTranslateSlider : Int
  zTranslateSlider : Int
  deriving DecidableEq

/-- State of a `Widget`. -/
structure Widget where
  ui : Sliders
  /-- shape actors among the view props of `mRenderer`, by identity (the
  renderer keeps each prop once) -/
  mRenderer : Finset Nat
  mCurrentShapeActor : Option Actor
  /-- whether `mBoxWidget2` is enabled -/
  boxWidgetOn : Bool
  /-- the raw pointer `callback->Actor` -/
  callbackActor : Option Nat
  /-- number of times `callback` has been added as observer of the box widget -/
  observers : Nat
  /-- identity the next `New()` actor gets -/
  nextActor : Nat
  deriving DecidableEq

/-- State after the constructor: no actor, empty renderer, box widget
disabled, `callback->Actor` null.  The initial slider values come from the form. -/
def Widget.init (ui : Sliders) : Widget :=
  { ui := ui, mRenderer := ∅, mCurrentShapeActor := none, boxWidgetOn := false,
    callbackActor := none, observers := 0, nextActor := 0 }

/-- Library call `vtkViewport::AddViewProp` (and `AddActor`): adds the prop
unless the renderer already has it. -/
def AddViewProp (p : Nat) (props : Finset Nat) : Finset Nat :=
  insert p props

/-- Library call `vtkViewport::RemoveViewProp` (and `RemoveActor`): removes the
prop if the renderer has it. -/
def RemoveViewProp (p : Nat) (props : Finset Nat) : Finset Nat :=
  props.erase p

/-- Apply an edit to the current actor, if there is one
(`if (mCurrentShapeActor) ...`). -/
def Widget.editActor (f : Actor → Actor) (w : Widget) : Widget :=
  match w.mCurrentShapeActor with
  | some a => { w with mCurrentShapeActor := some (f a) }
  | none => w

/-- Method `Widget::on_flipButton_clicked`. -/
def on_flipButton_clicked (w : Widget) : Widget :=
  w.editActor (Actor.RotateY 90)

/-- Method `Widget::on_rotateSlider_valueChanged`. -/
def on_rotateSlider_valueChanged (value : Int) (w : Widget) : Widget :=
  w.editActor (Actor.RotateY value)

/-- The factor computed by `on_scaleSlider_valueChanged`: `1 + (value / 100.0)`. -/
def scaleFactor (value : Int) : ℚ := 1 + (value : ℚ) / 100

/-- Method `Widget::on_scaleSlider_valueChanged`. -/
def on_scaleSlider_valueChanged (value : Int) (w : Widget) : Widget :=
  w.editActor (Actor.SetScale (scaleFactor value) (scaleFactor value) (scaleFactor value))

/-- Method `Widget::on_opacitySlider_valueChanged`. -/
def on_opacitySlider_valueChanged (value : Int) (w : Widget) : Widget :=
  let opacity : ℚ := (value : ℚ) / 100
  w.editActor (Actor.SetOpacity opacity)

/-- Method `Widget::on_redColorSlider_valueChanged`. -/
def on_redColorSlider_valueChanged (value : Int) (w : Widget) : Widget :=
  w.editActor fun a => a.SetColor { a.color with x := (value : ℚ) / 255 }

/-- Method `Widget::on_greenColorSlider_valueChanged`. -/
def on_greenColorSlider_valueChanged (value : Int) (w : Widget) : Widget :=
  w.editActor fun a => a.SetColor { a.color with y := (value : ℚ) / 255 }

/-- Method `Widget::on_blueColorSlider_valueChanged`. -/
def on_blueColorSlider_valueChanged (value : Int) (w : Widget) : Widget :=
  w.editActor fun a => a.SetColor { a.color with z := (value : ℚ) / 255 }

/-- Method `Widget::on_xTranslateSlider_valueChanged`. -/
def on_xTranslateSlider_valueChanged (value : Int) (w : Widget) : Widget :=
  w.editActor fun a => a.SetPosition { a.position with x := (value : ℚ) / 10 }

/-- Method `Widget::on_yTranslateSlider_valueChanged`. -/
def on_yTranslateSlider_valueChanged (value : Int) (w : Widget) : Widget :=
  w.editActor fun a => a.SetPosition { a.position with y := (value : ℚ) / 10 }

/-- Method `Widget::on_zTranslateSlider_valueChanged`. -/
def on_zTranslateSlider_valueChanged (value : Int) (w : Widget) : Widget :=
  w.editActor fun a => a.SetPosition { a.position with z := (value : ℚ) / 10 }

/-- The call `ui->rotateSlider->setValue(v)`.  A slider whose value changes
emits `valueChanged`, and the slot named `on_rotateSlider_valueChanged` is
connected to it by name, so the slot runs before `setValue` returns; a slider
that already has the value emits nothing.  The same holds for the eight other
sliders below.  The form's slider ranges are taken to contain `v`. -/
def setRotateSlider (v : Int) (w : Widget) : Widget :=
  if w.ui.rotateSlider = v then w
  else on_rotateSlider_valueChanged v { w with ui := { w.ui with rotateSlider := v } }

/-- The call `ui->scaleSlider->setValue(v)`. -/
def setScaleSlider (v : Int) (w : Widget) : Widget :=
  if w.ui.scaleSlider = v then w
  else on_scaleSlider_valueChanged v { w with ui := { w.ui with scaleSlider := v } }

/-- The call `ui->opacitySlider->setValue(v)`. -/
def setOpacitySlider (v : Int) (w : Widget) : Widget :=
  if w.ui.opacitySlider = v then w
  else on_opacitySlider_valueChanged v { w with ui := { w.ui with opacitySlider := v } }

/-- The call `ui->redColorSlider->setValue(v)`. -/
def setRedColorSlider (v : Int) (w : Widget) : Widget :=
  if w.ui.redColorSlider = v then w
  else on_redColorSlider_valueChanged v { w with ui := { w.ui with redColorSlider := v } }

/-- The call `ui->greenColorSlider->setValue(v)`. -/
def setGreenColorSlider (v : Int) (w : Widget) : Widget :=
  if w.ui.greenColorSlider = v then w
  else on_greenColorSlider_valueChanged v { w with ui := { w.ui with greenColorSlider := v } }

/-- The call `ui->blueColorSlider->setValue(v)`. -/
def setBlueColorSlider (v : Int) (w : Widget) : Widget :=
  if w.ui.blueColorSlider = v then w
  else on_blueColorSlider_valueChanged v { w with ui := { w.ui with blueColorSlider := v } }

/-- The call `ui->xTranslateSlider->setValue(v)`. -/
def setXTranslateSlider (v : Int) (w : Widget) : Widget :=
  if w.ui.xTranslateSlider = v then w
  else on_xTranslateSlider_valueChanged v { w with ui := { w.ui with xTranslateSlider := v } }

/-- The call `ui->yTranslateSlider->setValue(v)`. -/
def setYTranslateSlider (v : Int) (w : Widget) : Widget :=
  if w.ui.yTranslateSlider = v then w
  else on_yTranslateSlider_valueChanged v { w with ui := { w.ui with yTranslateSlider := v } }

/-- The call `ui->zTranslateSlider->setValue(v)`. -/
def setZTranslateSlider (v : Int) (w : Widget) : Widget :=
  if w.ui.zTranslateSlider = v then w
  else on_zTranslateSlider_valueChanged v { w with ui := { w.ui with zTranslateSlider := v } }

/-- The slider values that `reset_sliders` writes. -/
def defaultSliders : Sliders :=
  { rotateSlider := 0, scaleSlider := 0, opacitySlider := 100, redColorSlider := 0,
    greenColorSlider := 0, blueColorSlider := 0, xTranslateSlider := 0,
    yTranslateSlider := 0, zTranslateSlider := 0 }

/-- Method `Widget::reset_sliders`. -/
def reset_sliders (w : Widget) : Widget :=
  let w := setRotateSlider 0 w
  let w := setScaleSlider 0 w
  let w := setOpacitySlider 100 w
  let w := setRedColorSlider 0 w
  let w := setGreenColorSlider 0 w
  let w := setBlueColorSlider 0 w
  let w := setXTranslateSlider 0 w
  let w := setYTranslateSlider 0 w
  setZTranslateSlider 0 w

/-- Method `Widget::on_addButton_clicked`; `currentText` is `ui->comboBox->currentText()`. -/
def on_addButton_clicked (currentText : String) (w : Widget) : Widget :=
  match ShapeController.createShape currentText with
  | none => w
  | some shapeMapper =>
    let w :=
      match w.mCurrentShapeActor with
      | some old =>
        let w := reset_sliders w
        { w with mRenderer := RemoveViewProp old.id w.mRenderer, boxWidgetOn := false }
      | none => w
    let shapeActor := (Actor.new w.nextActor shapeMapper).SetColor ⟨0, 0, 0⟩
    { w with
      mCurrentShapeActor := some shapeActor
      mRenderer := AddViewProp shapeActor.id w.mRenderer
      nextActor := w.nextActor + 1 }

/-- Method `Widget::on_editButton_clicked`. -/
def on_editButton_clicked (w : Widget) : Widget :=
  match w.mCurrentShapeActor with
  | some a =>
    { w with callbackActor := some a.id, observers := w.observers + 1, boxWidgetOn := true }
  | none => w

/-- Method `Widget::on_deleteButton_clicked`. -/
def on_deleteButton_clicked (w : Widget) : Widget :=
  match w.mCurrentShapeActor with
  | some old =>
    let w := reset_sliders w
    { w with
      boxWidgetOn := false
      mRenderer := RemoveViewProp old.id w.mRenderer
      mCurrentShapeActor := none }
  | none => w

/-- Method `Widget::on_mergeButton_clicked` (empty body). -/
def on_mergeButton_clicked (w : Widget) : Widget := w

/-- Method `Widget::onLoadSTL`; `filePath` is what the open-file dialog returned. -/
def onLoadSTL (filePath : String) (w : Widget) : Widget :=
  if filePath.isEmpty then w
  else
    let shape := Actor.new w.nextActor ⟨.generated (.stlReader filePath)⟩
    let props :=
      match w.mCurrentShapeActor with
      | some old => RemoveViewProp old.id w.mRenderer
      | none => w.mRenderer
    { w with
      mCurrentShapeActor := some shape
      mRenderer := AddViewProp shape.id props
      nextActor := w.nextActor + 1 }

/-- The user actions on the form: button clicks, the load action, and moving a
slider to a value. -/
inductive Event where
  | addButton (currentText : String)
  | editButton
  | deleteButton
  | mergeButton
  | flipButton
  | loadSTL (filePath : String)
  | rotateSlider (v : Int)
  | scaleSlider (v : Int)
  | opacitySlider (v : Int)
  | redColorSlider (v : Int)
  | greenColorSlider (v : Int)
  | blueColorSlider (v : Int)
  | xTranslateSlider (v : Int)
  | yTranslateSlider (v : Int)
  | zTranslateSlider (v : Int)
  deriving DecidableEq

/-- The slot that runs for one event. -/
def step (w : Widget) : Event → Widget
  | .addButton currentText => on_addButton_clicked currentText w
  | .editButton => on_editButton_clicked w
  | .deleteButton => on_deleteButton_clicked w
  | .mergeButton => on_mergeButton_clicked w
  | .flipButton => on_flipButton_clicked w
  | .loadSTL filePath => onLoadSTL filePath w
  | .rotateSlider v => setRotateSlider v w
  | .scaleSlider v => setScaleSlider v w
  | .opacitySlider v => setOpacitySlider v w
  | .redColorSlider v => setRedColorSlider v w
  | .greenColorSlider v => setGreenColorSlider v w
  | .blueColorSlider v => setBlueColorSlider v w
  | .xTranslateSlider v => setXTranslateSlider v w
  | .yTranslateSlider v => setYTranslateSlider v w
  | .zTranslateSlider v => setZTranslateSlider v w

/-- The state after a sequence of events. -/
def run (w : Widget) (events : List Event) : Widget :=
  events.foldl step w

/-- The states reachable from the constructor's state by events. -/
def Reachable (w : Widget) : Prop :=
  ∃ ui events, w = run (Widget.init ui) events

/-- Two states with the same scene: the same renderer content, box widget,
callback and allocator, and the same current actor object (its properties and
the slider values may differ). -/
def SameScene (w w' : Widget) : Prop :=
  w'.mRenderer = w.mRenderer ∧ w'.boxWidgetOn = w.boxWidgetOn ∧
  w'.callbackActor = w.callbackActor ∧ w'.observers = w.observers ∧
  w'.nextActor = w.nextActor ∧
  w'.mCurrentShapeActor.map Actor.id = w.mCurrentShapeActor.map Actor.id

/-- The single-actor invariant: the renderer's shape actors are exactly the
current actor, when there is one, and none otherwise. -/
def SingleActor (w : Widget) : Prop :=
  w.mRenderer = (w.mCurrentShapeActor.map Actor.id).toFinset

/-- A sequence of events used as an example of a reachable state. -/
def sampleEvents : List Event :=
  [.addButton "Cube", .scaleSlider 150, .editButton, .loadSTL "part.stl", .flipButton,
   .addButton "Pyramid", .addButton "pyramid"]

/-- The translation by one unit along x. -/
def translateX : Transform :=
  ⟨⟨1, 0, 0⟩, ⟨0, 1, 0⟩, ⟨0, 0, 1⟩, ⟨1, 0, 0⟩⟩

/-- The uniform scaling by 3 about the origin. -/
def scaleBy3 : Transform :=
  ⟨⟨3, 0, 0⟩, ⟨0, 3, 0⟩, ⟨0, 0, 3⟩, ⟨0, 0, 0⟩⟩

/-- A pyramid added to the constructor's state and scaled by the scale slider
at 100 (factor 2). -/
def scaledPyramidWidget : Widget :=
  setScaleSlider 100 (on_addButton_clicked "Pyramid" (Widget.init defaultSliders))

/-- The actor of `scaledPyramidWidget`. -/
def scaledPyramidActor : Actor :=
  { id := 0, mapper := Pyramid.createShape ⟨4, 15⟩, position := ⟨0, 0, 0⟩,
    scale := ⟨2, 2, 2⟩, rotationY := 0, color := ⟨0, 0, 0⟩, opacity := 1 }

/-- A concrete state with an active shape: the constructor's state after one
click on the add button with "Cube" selected. -/
def cubeWidget : Widget :=
  on_addButton_clicked "Cube" (Widget.init defaultSliders)

/-- The actor of `cubeWidget`. -/
def cubeActor : Actor :=
  { id := 0, mapper := Cube.createShape ⟨30, 40, 50⟩, position := ⟨0, 0, 0⟩,
    scale := ⟨1, 1, 1⟩, rotationY := 0, color := ⟨0, 0, 0⟩, opacity := 1 }

/-! ## widget.cpp: saving to STL -/

/-- The test `str.endsWith(suffix, Qt::CaseInsensitive)` of `QString`: `str` is
at least as long as `suffix` and its last characters equal those of `suffix`
after case folding.  `foldCase` is the library's case-folding table, applied
character by character. -/
def endsWithCaseInsensitive (foldCase : Char → Char) (str suffix : String) : Bool :=
  decide (suffix.length ≤ str.length) &&
    decide ((str.data.drop (str.length - suffix.length)).map foldCase =
      suffix.data.map foldCase)

/-- The extension fix-up of `Widget::onSaveSTL`:
`if (!filePath.endsWith(".stl", Qt::CaseInsensitive)) filePath += ".stl";`. -/
def stlFileName (foldCase : Char → Char) (filePath : String) : String :=
  if !endsWithCaseInsensitive foldCase filePath ".stl" then filePath ++ ".stl" else filePath

/-- One run of the STL writer: the file name set on it and its input data. -/
structure STLWrite where
  fileName : String
  input : PolyData
  deriving DecidableEq

/-- Method `Widget::onSaveSTL`; `dialogPath` is what the save-file dialog
returns when it is opened (the empty string when the user cancels).  The
result is the write performed, `none` when nothing is written; the state of
the widget does not change.  A mapper's input is always a `vtkPolyData` here,
so the down-cast succeeds, and a file path holds no NUL character, so
`toStdString().c_str()` is the whole path. -/
def onSaveSTL (foldCase : Char → Char) (dialogPath : String) (w : Widget) : Option STLWrite :=
  match w.mCurrentShapeActor with
  | some a =>
    let polyData := a.mapper.input
    if dialogPath.isEmpty then none
    else some ⟨stlFileName foldCase dialogPath, polyData⟩
  | none => none

/-! ## Mesh combinatorics (used to state that the pyramid is closed) -/

/-- World-space points of the actor's mesh when its orientation has the
rotation matrix `R` (for any angle): the points of the mapper's input, scaled,
rotated by `R` and translated by the position. -/
def Actor.worldPointsWith (tess : Source → List Vec3) (R : Transform) (a : Actor) : List Vec3 :=
  (a.mapper.input.points tess).map (composeMatrix a.position a.scale R).apply

/-- A pyramid added to the constructor's state and flipped once: every slider
is at its default value and the actor is turned by 90 degrees. -/
def flippedPyramidWidget : Widget :=
  on_flipButton_clicked (on_addButton_clicked "Pyramid" (Widget.init defaultSliders))

/-- The actor of `flippedPyramidWidget`. -/
def flippedPyramidActor : Actor :=
  { id := 0, mapper := Pyramid.createShape ⟨4, 15⟩, position := ⟨0, 0, 0⟩,
    scale := ⟨1, 1, 1⟩, rotationY := 90, color := ⟨0, 0, 0⟩, opacity := 1 }

/-! ## Theorems -/

/-- C1: `ShapeController::createShape(s)` is the null mapper exactly when `s` is none of the nine
names, and for each of the nine names it is the non-null mapper that the shape
class of that name builds (with the controller's constants); the comparison is
exact, so a name in another letter case or with a blank added or left out gives
the null mapper. -/
theorem createShape_null_iff_unknown (s : String) :
    (ShapeController.createShape s = none ↔ s ∉ shapeNames) ∧
    ShapeController.createShape "Cube" = some (Cube.createShape ⟨30, 40, 50⟩) ∧
    ShapeController.createShape "Sphere" = some (Sphere.createShape ⟨5⟩) ∧
    ShapeController.createShape "Hemisphere" = some (Hemisphere.createShape ⟨5⟩) ∧
    ShapeController.createShape "Cone" = some (Cone.createShape ⟨30⟩) ∧
    ShapeController.createShape "Pyramid" = some (Pyramid.createShape ⟨4, 15⟩) ∧
    ShapeController.createShape "Cylinder" = some (Cylinder.createShape ⟨5, 20⟩) ∧
    ShapeController.createShape "Tube" = some (Tube.createShape ⟨2, 5⟩) ∧
    ShapeController.createShape "Doughnut" = some (Doughnut.createShape ⟨6, 3⟩) ∧
    ShapeController.createShape "Curved Cylinder" = some (CurvedCylinder.createShape ⟨5⟩) ∧
    ShapeController.createShape "cube" = none ∧
    ShapeController.createShape " Cube" = none ∧
    ShapeController.createShape "Cube " = none ∧
    ShapeController.createShape "CurvedCylinder" = none := by
  refine ⟨?_, ?_, ?_, ?_, ?_, ?_, ?_, ?_, ?_, ?_, ?_, ?_, ?_, ?_⟩
  · unfold ShapeController.createShape shapeNames
    split_ifs <;> simp_all
  all_goals simp [ShapeController.createShape]

/-- The actor of `cubeWidget` is `cubeActor`. -/
theorem cubeWidget_actor : cubeWidget.mCurrentShapeActor = some cubeActor := by
  rfl

/-- An edit of the current actor, when there is one. -/
theorem editActor_some (f : Actor → Actor) (w : Widget) (a : Actor)
    (h : w.mCurrentShapeActor = some a) :
    w.editActor f = { w with mCurrentShapeActor := some (f a) } := by
  simp [Widget.editActor, h]

/-- C2: with an active shape, the scale handler sets the actor's scale to
(s, s, s) with s = 1 + v/100 and changes nothing else; the result does not
depend on the scale before; and for 0 ≤ v ≤ 200 the factor lies in [1, 3]. -/
theorem scaleSlider_uniform_factor (w : Widget) (a : Actor) (v : Int)
    (h : w.mCurrentShapeActor = some a) :
    on_scaleSlider_valueChanged v w =
      { w with mCurrentShapeActor := some { a with
          scale := ⟨1 + (v : ℚ) / 100, 1 + (v : ℚ) / 100, 1 + (v : ℚ) / 100⟩ } } ∧
    (∀ s0 : Vec3,
      on_scaleSlider_valueChanged v { w with mCurrentShapeActor := some { a with scale := s0 } } =
        on_scaleSlider_valueChanged v w) ∧
    (0 ≤ v → v ≤ 200 → (1 : ℚ) ≤ 1 + (v : ℚ) / 100 ∧ 1 + (v : ℚ) / 100 ≤ 3) := by
  refine ⟨?_, ?_, ?_⟩
  · rw [on_scaleSlider_valueChanged, editActor_some _ w a h]
    rfl
  · intro s0
    rw [on_scaleSlider_valueChanged, on_scaleSlider_valueChanged, editActor_some _ w a h,
      editActor_some _ _ { a with scale := s0 } rfl]
    rfl
  · intro h0 h1
    have h0q : (0 : ℚ) ≤ (v : ℚ) := by exact_mod_cast h0
    have h1q : (v : ℚ) ≤ 200 := by exact_mod_cast h1
    constructor <;> linarith

/-- Witness of C2 at the cube widget and slider value 150: the scale becomes
(5/2, 5/2, 5/2). -/
theorem scaleSlider_uniform_factor_witness :
    (on_scaleSlider_valueChanged 150 cubeWidget).mCurrentShapeActor =
      some { cubeActor with scale := ⟨5 / 2, 5 / 2, 5 / 2⟩ } ∧
    ((1 : ℚ) ≤ 1 + ((150 : Int) : ℚ) / 100 ∧ 1 + ((150 : Int) : ℚ) / 100 ≤ 3) := by
  have key := scaleSlider_uniform_factor cubeWidget cubeActor 150 cubeWidget_actor
  refine ⟨?_, key.2.2 (by decide) (by decide)⟩
  rw [key.1]
  norm_num

/-! ### Frame lemmas for the slider slots -/

theorem sameScene_refl (w : Widget) : SameScene w w :=
  ⟨rfl, rfl, rfl, rfl, rfl, rfl⟩

theorem sameScene_trans {w1 w2 w3 : Widget} (h12 : SameScene w1 w2) (h23 : SameScene w2 w3) :
    SameScene w1 w3 := by
  obtain ⟨a1, a2, a3, a4, a5, a6⟩ := h12
  obtain ⟨b1, b2, b3, b4, b5, b6⟩ := h23
  exact ⟨b1.trans a1, b2.trans a2, b3.trans a3, b4.trans a4, b5.trans a5, b6.trans a6⟩

@[simp] theorem editActor_ui (f : Actor → Actor) (w : Widget) : (w.editActor f).ui = w.ui := by
  unfold Widget.editActor
  split <;> rfl

theorem editActor_sameScene (f : Actor → Actor) (hf : ∀ a, (f a).id = a.id) (w : Widget) :
    SameScene w (w.editActor f) := by
  unfold Widget.editActor
  split
  · next a h => exact ⟨rfl, rfl, rfl, rfl, rfl, by simp [h, hf]⟩
  · exact sameScene_refl w

theorem sameScene_set_ui (w : Widget) (ui : Sliders) : SameScene w { w with ui := ui } :=
  ⟨rfl, rfl, rfl, rfl, rfl, rfl⟩

theorem on_rotateSlider_sameScene (v : Int) (w : Widget) :
    SameScene w (on_rotateSlider_valueChanged v w) := by
  unfold on_rotateSlider_valueChanged
  apply editActor_sameScene
  intro a
  rfl

theorem setRotateSlider_ui (v : Int) (w : Widget) :
    (setRotateSlider v w).ui = { w.ui with rotateSlider := v } := by
  unfold setRotateSlider
  split
  · next h => rw [← h]
  · simp [on_rotateSlider_valueChanged]

theorem setRotateSlider_sameScene (v : Int) (w : Widget) :
    SameScene w (setRotateSlider v w) := by
  unfold setRotateSlider
  split
  · exact sameScene_refl w
  · exact sameScene_trans (sameScene_set_ui w _) (on_rotateSlider_sameScene v _)

theorem on_scaleSlider_sameScene (v : Int) (w : Widget) :
    SameScene w (on_scaleSlider_valueChanged v w) := by
  unfold on_scaleSlider_valueChanged
  apply editActor_sameScene
  intro a
  rfl

theorem setScaleSlider_ui (v : Int) (w : Widget) :
    (setScaleSlider v w).ui = { w.ui with scaleSlider := v } := by
  unfold setScaleSlider
  split
  · next h => rw [← h]
  · simp [on_scaleSlider_valueChanged]

theorem setScaleSlider_sameScene (v : Int) (w : Widget) :
    SameScene w (setScaleSlider v w) := by
  unfold setScaleSlider
  split
  · exact sameScene_refl w
  · exact sameScene_trans (sameScene_set_ui w _) (on_scaleSlider_sameScene v _)

theorem on_opacitySlider_sameScene (v : Int) (w : Widget) :
    SameScene w (on_opacitySlider_valueChanged v w) := by
  unfold on_opacitySlider_valueChanged
  apply editActor_sameScene
  intro a
  rfl

theorem setOpacitySlider_ui (v : Int) (w : Widget) :
    (setOpacitySlider v w).ui = { w.ui with opacitySlider := v } := by
  unfold setOpacitySlider
  split
  · next h => rw [← h]
  · simp [on_opacitySlider_valueChanged]

theorem setOpacitySlider_sameScene (v : Int) (w : Widget) :
    SameScene w (setOpacitySlider v w) := by
  unfold setOpacitySlider
  split
  · exact sameScene_refl w
  · exact sameScene_trans (sameScene_set_ui w _) (on_opacitySlider_sameScene v _)

theorem on_redColorSlider_sameScene (v : Int) (w : Widget) :
    SameScene w (on_redColorSlider_valueChanged v w) := by
  unfold on_redColorSlider_valueChanged
  apply editActor_sameScene
  intro a
  rfl

theorem setRedColorSlider_ui (v : Int) (w : Widget) :
    (setRedColorSlider v w).ui = { w.ui with redColorSlider := v } := by
  unfold setRedColorSlider
  split
  · next h => rw [← h]
  · simp [on_redColorSlider_valueChanged]

theorem setRedColorSlider_sameScene (v : Int) (w : Widget) :
    SameScene w (setRedColorSlider v w) := by
  unfold setRedColorSlider
  split
  · exact sameScene_refl w
  · exact sameScene_trans (sameScene_set_ui w _) (on_redColorSlider_sameScene v _)

theorem on_greenColorSlider_sameScene (v : Int) (w : Widget) :
    SameScene w (on_greenColorSlider_valueChanged v w) := by
  unfold on_greenColorSlider_valueChanged
  apply editActor_sameScene
  intro a
  rfl

theorem setGreenColorSlider_ui (v : Int) (w : Widget) :
    (setGreenColorSlider v w).ui = { w.ui with greenColorSlider := v } := by
  unfold setGreenColorSlider
  split
  · next h => rw [← h]
  · simp [on_greenColorSlider_valueChanged]

theorem setGreenColorSlider_sameScene (v : Int) (w : Widget) :
    SameScene w (setGreenColorSlider v w) := by
  unfold setGreenColorSlider
  split
  · exact sameScene_refl w
  · exact sameScene_trans (sameScene_set_ui w _) (on_greenColorSlider_sameScene v _)

theorem on_blueColorSlider_sameScene (v : Int) (w : Widget) :
    SameScene w (on_blueColorSlider_valueChanged v w) := by
  unfold on_blueColorSlider_valueChanged
  apply editActor_sameScene
  intro a
  rfl

theorem setBlueColorSlider_ui (v : Int) (w : Widget) :
    (setBlueColorSlider v w).ui = { w.ui with blueColorSlider := v } := by
  unfold setBlueColorSlider
  split
  · next h => rw [← h]
  · simp [on_blueColorSlider_valueChanged]

theorem setBlueColorSlider_sameScene (v : Int) (w : Widget) :
    SameScene w (setBlueColorSlider v w) := by
  unfold setBlueColorSlider
  split
  · exact sameScene_refl w
  · exact sameScene_trans (sameScene_set_ui w _) (on_blueColorSlider_sameScene v _)

theorem on_xTranslateSlider_sameScene (v : Int) (w : Widget) :
    SameScene w (on_xTranslateSlider_valueChanged v w) := by
  unfold on_xTranslateSlider_valueChanged
  apply editActor_sameScene
  intro a
  rfl

theorem setXTranslateSlider_ui (v : Int) (w : Widget) :
    (setXTranslateSlider v w).ui = { w.ui with xTranslateSlider := v } := by
  unfold setXTranslateSlider
  split
  · next h => rw [← h]
  · simp [on_xTranslateSlider_valueChanged]

theorem setXTranslateSlider_sameScene (v : Int) (w : Widget) :
    SameScene w (setXTranslateSlider v w) := by
  unfold setXTranslateSlider
  split
  · exact sameScene_refl w
  · exact sameScene_trans (sameScene_set_ui w _) (on_xTranslateSlider_sameScene v _)

theorem on_yTranslateSlider_sameScene (v : Int) (w : Widget) :
    SameScene w (on_yTranslateSlider_valueChanged v w) := by
  unfold on_yTranslateSlider_valueChanged
  apply editActor_sameScene
  intro a
  rfl

theorem setYTranslateSlider_ui (v : Int) (w : Widget) :
    (setYTranslateSlider v w).ui = { w.ui with yTranslateSlider := v } := by
  unfold setYTranslateSlider
  split
  · next h => rw [← h]
  · simp [on_yTranslateSlider_valueChanged]

theorem setYTranslateSlider_sameScene (v : Int) (w : Widget) :
    SameScene w (setYTranslateSlider v w) := by
  unfold setYTranslateSlider
  split
  · exact sameScene_refl w
  · exact sameScene_trans (sameScene_set_ui w _) (on_yTranslateSlider_sameScene v _)

theorem on_zTranslateSlider_sameScene (v : Int) (w : Widget) :
    SameScene w (on_zTranslateSlider_valueChanged v w) := by
  unfold on_zTranslateSlider_valueChanged
  apply editActor_sameScene
  intro a
  rfl

theorem setZTranslateSlider_ui (v : Int) (w : Widget) :
    (setZTranslateSlider v w).ui = { w.ui with zTranslateSlider := v } := by
  unfold setZTranslateSlider
  split
  · next h => rw [← h]
  · simp [on_zTranslateSlider_valueChanged]

theorem setZTranslateSlider_sameScene (v : Int) (w : Widget) :
    SameScene w (setZTranslateSlider v w) := by
  unfold setZTranslateSlider
  split
  · exact sameScene_refl w
  · exact sameScene_trans (sameScene_set_ui w _) (on_zTranslateSlider_sameScene v _)

theorem reset_sliders_ui (w : Widget) : (reset_sliders w).ui = defaultSliders := by
  simp only [reset_sliders, setRotateSlider_ui, setScaleSlider_ui, setOpacitySlider_ui,
    setRedColorSlider_ui, setGreenColorSlider_ui, setBlueColorSlider_ui,
    setXTranslateSlider_ui, setYTranslateSlider_ui, setZTranslateSlider_ui]
  rfl

theorem reset_sliders_sameScene (w : Widget) : SameScene w (reset_sliders w) := by
  unfold reset_sliders
  exact sameScene_trans (sameScene_trans (sameScene_trans (sameScene_trans (sameScene_trans
    (sameScene_trans (sameScene_trans (sameScene_trans (setRotateSlider_sameScene 0 w)
    (setScaleSlider_sameScene 0 _)) (setOpacitySlider_sameScene 100 _))
    (setRedColorSlider_sameScene 0 _)) (setGreenColorSlider_sameScene 0 _))
    (setBlueColorSlider_sameScene 0 _)) (setXTranslateSlider_sameScene 0 _))
    (setYTranslateSlider_sameScene 0 _)) (setZTranslateSlider_sameScene 0 _)

/-- C5: with an active shape, the delete slot leaves no current actor, the
renderer without that actor, the box widget off and every slider at its
default value. -/
theorem deleteButton_removes_shape (w : Widget) (a : Actor)
    (h : w.mCurrentShapeActor = some a) :
    (on_deleteButton_clicked w).mCurrentShapeActor = none ∧
    a.id ∉ (on_deleteButton_clicked w).mRenderer ∧
    (on_deleteButton_clicked w).boxWidgetOn = false ∧
    (on_deleteButton_clicked w).ui = defaultSliders := by
  simp [on_deleteButton_clicked, h, RemoveViewProp, reset_sliders_ui]

/-- Witness of C5: deleting the shape of the cube widget, after the edit
button turned the box widget on and the scale slider was moved. -/
theorem deleteButton_removes_shape_witness :
    (on_deleteButton_clicked (setScaleSlider 150 (on_editButton_clicked cubeWidget))).mCurrentShapeActor
      = none ∧
    (0 : Nat) ∉ (on_deleteButton_clicked (setScaleSlider 150 (on_editButton_clicked cubeWidget))).mRenderer ∧
    (on_deleteButton_clicked (setScaleSlider 150 (on_editButton_clicked cubeWidget))).boxWidgetOn
      = false ∧
    (on_deleteButton_clicked (setScaleSlider 150 (on_editButton_clicked cubeWidget))).ui
      = defaultSliders :=
  deleteButton_removes_shape (setScaleSlider 150 (on_editButton_clicked cubeWidget))
    { cubeActor with scale := ⟨5 / 2, 5 / 2, 5 / 2⟩ } (by
      simp [setScaleSlider, on_editButton_clicked, cubeWidget_actor, cubeWidget,
        on_addButton_clicked, ShapeController.createShape, Widget.init, defaultSliders,
        on_scaleSlider_valueChanged, Widget.editActor, Actor.SetScale, scaleFactor, cubeActor,
        Actor.new, Actor.SetColor]
      norm_num)

/-- Composition of affine maps acts as one map after the other. -/
theorem Transform.comp_apply (A B : Transform) (p : Vec3) :
    (A.comp B).apply p = A.apply (B.apply p) := by
  simp only [Transform.comp, Transform.apply, Vec3.dot, Vec3.mk.injEq]
  refine ⟨?_, ?_, ?_⟩ <;> ring

/-- Adding 90 degrees to the angle about Y is composing the rotation with the
quarter turn about Y. -/
theorem rotationYMatrix_add_quarter (deg : Int) (R : Transform)
    (h : rotationYMatrix deg = some R) :
    rotationYMatrix (deg + 90) = some (R.comp quarterTurnY) := by
  unfold rotationYMatrix at h ⊢
  have hlt : deg % 360 < 360 := Int.emod_lt_of_pos deg (by norm_num)
  have hnn : 0 ≤ deg % 360 := Int.emod_nonneg deg (by norm_num)
  split_ifs at h with h0 h1 h2 h3
  · have e : (deg + 90) % 360 = 90 := by omega
    simp only [Option.some.injEq] at h
    subst h
    simp [e, Transform.comp, Transform.apply, Vec3.dot, quarterTurnY]
  · have e : (deg + 90) % 360 = 180 := by omega
    simp only [Option.some.injEq] at h
    subst h
    simp [e, Transform.comp, Transform.apply, Vec3.dot, quarterTurnY]
  · have e : (deg + 90) % 360 = 270 := by omega
    simp only [Option.some.injEq] at h
    subst h
    simp [e, Transform.comp, Transform.apply, Vec3.dot, quarterTurnY]
  · have e : (deg + 90) % 360 = 0 := by omega
    simp only [Option.some.injEq] at h
    subst h
    simp [e, Transform.comp, Transform.apply, Vec3.dot, quarterTurnY]

/-- A full turn does not change the rotation matrix. -/
theorem rotationYMatrix_add_full (deg : Int) :
    rotationYMatrix (deg + 360) = rotationYMatrix deg := by
  unfold rotationYMatrix
  have e : (deg + 360) % 360 = deg % 360 := by omega
  rw [e]

/-- C6: with an active shape, the flip slot adds a quarter turn about Y to the
actor's orientation (its rotation matrix, where rational, is composed with the
quarter turn about Y) and changes nothing else; after four flips every other
field is as before and the orientation is the original one (the angle is the
same modulo 360 and the actor matrix is the same). -/
theorem flipButton_quarter_turn (w : Widget) (a : Actor)
    (h : w.mCurrentShapeActor = some a) :
    on_flipButton_clicked w =
      { w with mCurrentShapeActor := some { a with rotationY := a.rotationY + 90 } } ∧
    (∀ R, rotationYMatrix a.rotationY = some R →
      rotationYMatrix (a.rotationY + 90) = some (R.comp quarterTurnY)) ∧
    on_flipButton_clicked (on_flipButton_clicked (on_flipButton_clicked (on_flipButton_clicked w))) =
      { w with mCurrentShapeActor := some { a with rotationY := a.rotationY + 360 } } ∧
    (a.rotationY + 360) % 360 = a.rotationY % 360 ∧
    Actor.GetMatrix { a with rotationY := a.rotationY + 360 } = Actor.GetMatrix a := by
  have one : ∀ (w1 : Widget) (a1 : Actor), w1.mCurrentShapeActor = some a1 →
      on_flipButton_clicked w1 =
        { w1 with mCurrentShapeActor := some { a1 with rotationY := a1.rotationY + 90 } } := by
    intro w1 a1 h1
    rw [on_flipButton_clicked, editActor_some _ w1 a1 h1]
    rfl
  refine ⟨one w a h, fun R hR => rotationYMatrix_add_quarter _ R hR, ?_, by omega, ?_⟩
  · simp only [on_flipButton_clicked, Widget.editActor, h, Actor.RotateY, Widget.mk.injEq,
      Option.some.injEq, Actor.mk.injEq, true_and, and_true]
    omega
  · simp only [Actor.GetMatrix, rotationYMatrix_add_full]

/-- Witness of C6 at the cube widget: one flip gives 90 degrees, four flips
give 360 degrees, the same orientation as 0. -/
theorem flipButton_quarter_turn_witness :
    (on_flipButton_clicked cubeWidget).mCurrentShapeActor =
      some { cubeActor with rotationY := 90 } ∧
    (on_flipButton_clicked (on_flipButton_clicked (on_flipButton_clicked
      (on_flipButton_clicked cubeWidget)))).mCurrentShapeActor =
      some { cubeActor with rotationY := 360 } ∧
    Actor.GetMatrix { cubeActor with rotationY := cubeActor.rotationY + 360 } =
      Actor.GetMatrix cubeActor := by
  have key := flipButton_quarter_turn cubeWidget cubeActor cubeWidget_actor
  refine ⟨?_, ?_, key.2.2.2.2⟩
  · rw [key.1]
    rfl
  · rw [key.2.2.1]
    rfl

/-- C7: with an active shape, each colour slot writes v/255 into its own
component of the actor's colour (red 0, green 1, blue 2), leaves the two other
components and every other property as they were, and for 0 ≤ v ≤ 255 the
written component lies in [0, 1]. -/
theorem colorSliders_own_channel (w : Widget) (a : Actor) (v : Int)
    (h : w.mCurrentShapeActor = some a) :
    on_redColorSlider_valueChanged v w =
      { w with mCurrentShapeActor := some { a with
          color := ⟨(v : ℚ) / 255, a.color.y, a.color.z⟩ } } ∧
    on_greenColorSlider_valueChanged v w =
      { w with mCurrentShapeActor := some { a with
          color := ⟨a.color.x, (v : ℚ) / 255, a.color.z⟩ } } ∧
    on_blueColorSlider_valueChanged v w =
      { w with mCurrentShapeActor := some { a with
          color := ⟨a.color.x, a.color.y, (v : ℚ) / 255⟩ } } ∧
    (0 ≤ v → v ≤ 255 → (0 : ℚ) ≤ (v : ℚ) / 255 ∧ (v : ℚ) / 255 ≤ 1) := by
  refine ⟨?_, ?_, ?_, ?_⟩
  · rw [on_redColorSlider_valueChanged, editActor_some _ w a h]
    rfl
  · rw [on_greenColorSlider_valueChanged, editActor_some _ w a h]
    rfl
  · rw [on_blueColorSlider_valueChanged, editActor_some _ w a h]
    rfl
  · intro h0 h1
    have h0q : (0 : ℚ) ≤ (v : ℚ) := by exact_mod_cast h0
    have h1q : (v : ℚ) ≤ 255 := by exact_mod_cast h1
    constructor
    · positivity
    · rw [div_le_one (by norm_num)]
      exact h1q

/-- Witness of C7 at the cube widget (colour (0, 0, 0)) and slider value 51:
the written component is 1/5. -/
theorem colorSliders_own_channel_witness :
    (on_redColorSlider_valueChanged 51 cubeWidget).mCurrentShapeActor =
      some { cubeActor with color := ⟨1 / 5, 0, 0⟩ } ∧
    (on_greenColorSlider_valueChanged 51 cubeWidget).mCurrentShapeActor =
      some { cubeActor with color := ⟨0, 1 / 5, 0⟩ } ∧
    (on_blueColorSlider_valueChanged 51 cubeWidget).mCurrentShapeActor =
      some { cubeActor with color := ⟨0, 0, 1 / 5⟩ } ∧
    ((0 : ℚ) ≤ ((51 : Int) : ℚ) / 255 ∧ ((51 : Int) : ℚ) / 255 ≤ 1) := by
  have key := colorSliders_own_channel cubeWidget cubeActor 51 cubeWidget_actor
  refine ⟨?_, ?_, ?_, key.2.2.2 (by decide) (by decide)⟩
  · rw [key.1]
    simp [cubeActor]
    norm_num
  · rw [key.2.1]
    simp [cubeActor]
    norm_num
  · rw [key.2.2.1]
    simp [cubeActor]
    norm_num

/-- C8: with an active shape, each translate slot writes v/10 into its own
coordinate of the actor's position, whatever that coordinate was, and leaves
the two other coordinates and every other property as they were; any two of
the three slots commute. -/
theorem translateSliders_own_coordinate (w : Widget) (a : Actor) (u v : Int)
    (h : w.mCurrentShapeActor = some a) :
    on_xTranslateSlider_valueChanged v w =
      { w with mCurrentShapeActor := some { a with
          position := ⟨(v : ℚ) / 10, a.position.y, a.position.z⟩ } } ∧
    on_yTranslateSlider_valueChanged v w =
      { w with mCurrentShapeActor := some { a with
          position := ⟨a.position.x, (v : ℚ) / 10, a.position.z⟩ } } ∧
    on_zTranslateSlider_valueChanged v w =
      { w with mCurrentShapeActor := some { a with
          position := ⟨a.position.x, a.position.y, (v : ℚ) / 10⟩ } } ∧
    on_xTranslateSlider_valueChanged u (on_yTranslateSlider_valueChanged v w) =
      on_yTranslateSlider_valueChanged v (on_xTranslateSlider_valueChanged u w) ∧
    on_xTranslateSlider_valueChanged u (on_zTranslateSlider_valueChanged v w) =
      on_zTranslateSlider_valueChanged v (on_xTranslateSlider_valueChanged u w) ∧
    on_yTranslateSlider_valueChanged u (on_zTranslateSlider_valueChanged v w) =
      on_zTranslateSlider_valueChanged v (on_yTranslateSlider_valueChanged u w) := by
  refine ⟨?_, ?_, ?_, ?_, ?_, ?_⟩
  · rw [on_xTranslateSlider_valueChanged, editActor_some _ w a h]
    rfl
  · rw [on_yTranslateSlider_valueChanged, editActor_some _ w a h]
    rfl
  · rw [on_zTranslateSlider_valueChanged, editActor_some _ w a h]
    rfl
  · simp [on_xTranslateSlider_valueChanged, on_yTranslateSlider_valueChanged,
      Widget.editActor, h, Actor.SetPosition]
  · simp [on_xTranslateSlider_valueChanged, on_zTranslateSlider_valueChanged,
      Widget.editActor, h, Actor.SetPosition]
  · simp [on_yTranslateSlider_valueChanged, on_zTranslateSlider_valueChanged,
      Widget.editActor, h, Actor.SetPosition]

/-- Witness of C8 at the cube widget (position (0, 0, 0)): x to 25 tenths,
then y to -7 tenths, in either order. -/
theorem translateSliders_own_coordinate_witness :
    (on_xTranslateSlider_valueChanged (-7) cubeWidget).mCurrentShapeActor =
      some { cubeActor with position := ⟨-7 / 10, 0, 0⟩ } ∧
    on_xTranslateSlider_valueChanged 25 (on_yTranslateSlider_valueChanged (-7) cubeWidget) =
      on_yTranslateSlider_valueChanged (-7) (on_xTranslateSlider_valueChanged 25 cubeWidget) := by
  have key := translateSliders_own_coordinate cubeWidget cubeActor 25 (-7) cubeWidget_actor
  refine ⟨?_, key.2.2.2.1⟩
  rw [key.1]
  simp [cubeActor]

/-- C10 (the code at the failing input): the rotate slot adds its value to the
actor's angle about Y, so the angle after the call depends on the angle before;
on the cube widget (angle 0) one call with 90 gives 90 degrees and a second
call with the same value gives 180 degrees, a different rotation matrix. -/
theorem rotateSlider_accumulates :
    (∀ (w : Widget) (a : Actor) (v : Int), w.mCurrentShapeActor = some a →
      on_rotateSlider_valueChanged v w =
        { w with mCurrentShapeActor := some { a with rotationY := a.rotationY + v } }) ∧
    (on_rotateSlider_valueChanged 90 cubeWidget).mCurrentShapeActor =
      some { cubeActor with rotationY := 90 } ∧
    (on_rotateSlider_valueChanged 90 (on_rotateSlider_valueChanged 90 cubeWidget)).mCurrentShapeActor =
      some { cubeActor with rotationY := 180 } ∧
    on_rotateSlider_valueChanged 90 (on_rotateSlider_valueChanged 90 cubeWidget) ≠
      on_rotateSlider_valueChanged 90 cubeWidget ∧
    rotationYMatrix 180 ≠ rotationYMatrix 90 ∧
    on_rotateSlider_valueChanged 90 (on_rotateSlider_valueChanged 90 cubeWidget) =
      on_flipButton_clicked (on_flipButton_clicked cubeWidget) := by
  refine ⟨?_, by rfl, by rfl, by decide, by decide, by rfl⟩
  intro w a v h
  rw [on_rotateSlider_valueChanged, editActor_some _ w a h]
  rfl

/-! ### The single-actor invariant -/

theorem singleActor_of_sameScene {w w' : Widget} (h : SameScene w w') (hw : SingleActor w) :
    SingleActor w' := by
  unfold SingleActor at hw ⊢
  rw [h.1, h.2.2.2.2.2, hw]

theorem singleActor_init (ui : Sliders) : SingleActor (Widget.init ui) := by
  simp [SingleActor, Widget.init]

theorem singleActor_addButton (currentText : String) (w : Widget) (hw : SingleActor w) :
    SingleActor (on_addButton_clicked currentText w) := by
  unfold on_addButton_clicked
  cases hc : ShapeController.createShape currentText with
  | none => exact hw
  | some m =>
    cases ha : w.mCurrentShapeActor with
    | none =>
      unfold SingleActor at hw
      simp [SingleActor, ha, hw, AddViewProp, Actor.SetColor, Actor.new]
    | some old =>
      have hr := singleActor_of_sameScene (reset_sliders_sameScene w) hw
      have hid := (reset_sliders_sameScene w).2.2.2.2.2
      unfold SingleActor at hr
      rw [hid, ha] at hr
      simp [SingleActor, hr, AddViewProp, RemoveViewProp, Actor.SetColor, Actor.new]

theorem singleActor_deleteButton (w : Widget) (hw : SingleActor w) :
    SingleActor (on_deleteButton_clicked w) := by
  unfold on_deleteButton_clicked
  cases ha : w.mCurrentShapeActor with
  | none => exact hw
  | some old =>
    have hr := singleActor_of_sameScene (reset_sliders_sameScene w) hw
    have hid := (reset_sliders_sameScene w).2.2.2.2.2
    unfold SingleActor at hr
    rw [hid, ha] at hr
    simp [SingleActor, hr, RemoveViewProp]

theorem singleActor_editButton (w : Widget) (hw : SingleActor w) :
    SingleActor (on_editButton_clicked w) := by
  unfold on_editButton_clicked
  cases ha : w.mCurrentShapeActor with
  | none => exact hw
  | some a =>
    unfold SingleActor at hw
    simp [SingleActor, ha, hw]

theorem singleActor_loadSTL (filePath : String) (w : Widget) (hw : SingleActor w) :
    SingleActor (onLoadSTL filePath w) := by
  unfold onLoadSTL
  split
  · exact hw
  · unfold SingleActor at hw
    cases ha : w.mCurrentShapeActor with
    | none => simp [SingleActor, ha, hw, AddViewProp, Actor.new]
    | some old => simp [SingleActor, ha, hw, AddViewProp, RemoveViewProp, Actor.new]

theorem on_flipButton_sameScene (w : Widget) : SameScene w (on_flipButton_clicked w) := by
  unfold on_flipButton_clicked
  apply editActor_sameScene
  intro a
  rfl

theorem singleActor_step (w : Widget) (e : Event) (hw : SingleActor w) :
    SingleActor (step w e) := by
  cases e with
  | addButton currentText => exact singleActor_addButton currentText w hw
  | editButton => exact singleActor_editButton w hw
  | deleteButton => exact singleActor_deleteButton w hw
  | mergeButton => exact hw
  | flipButton => exact singleActor_of_sameScene (on_flipButton_sameScene w) hw
  | loadSTL filePath => exact singleActor_loadSTL filePath w hw
  | rotateSlider v => exact singleActor_of_sameScene (setRotateSlider_sameScene v w) hw
  | scaleSlider v => exact singleActor_of_sameScene (setScaleSlider_sameScene v w) hw
  | opacitySlider v => exact singleActor_of_sameScene (setOpacitySlider_sameScene v w) hw
  | redColorSlider v => exact singleActor_of_sameScene (setRedColorSlider_sameScene v w) hw
  | greenColorSlider v => exact singleActor_of_sameScene (setGreenColorSlider_sameScene v w) hw
  | blueColorSlider v => exact singleActor_of_sameScene (setBlueColorSlider_sameScene v w) hw
  | xTranslateSlider v => exact singleActor_of_sameScene (setXTranslateSlider_sameScene v w) hw
  | yTranslateSlider v => exact singleActor_of_sameScene (setYTranslateSlider_sameScene v w) hw
  | zTranslateSlider v => exact singleActor_of_sameScene (setZTranslateSlider_sameScene v w) hw

theorem singleActor_run (events : List Event) (w : Widget) (hw : SingleActor w) :
    SingleActor (run w events) := by
  induction events generalizing w with
  | nil => exact hw
  | cons e rest ih => exact ih (step w e) (singleActor_step w e hw)

/-- C3: in every state reachable from the constructor's state by add, edit,
delete, merge, flip, load-STL and slider events, the renderer holds at most one
shape actor, it holds one exactly when `mCurrentShapeActor` is non-null, and
that one is `mCurrentShapeActor`. -/
theorem single_active_actor (w : Widget) (h : Reachable w) :
    w.mRenderer.card ≤ 1 ∧
    (w.mRenderer.Nonempty ↔ w.mCurrentShapeActor.isSome = true) ∧
    (∀ id ∈ w.mRenderer, ∃ a, w.mCurrentShapeActor = some a ∧ a.id = id) ∧
    (∀ a, w.mCurrentShapeActor = some a → w.mRenderer = {a.id}) := by
  obtain ⟨ui, events, rfl⟩ := h
  have inv := singleActor_run events (Widget.init ui) (singleActor_init ui)
  unfold SingleActor at inv
  cases ha : (run (Widget.init ui) events).mCurrentShapeActor with
  | none => simp [inv, ha]
  | some a => simp [inv, ha]

/-- Witness of C3 at the state reached by `sampleEvents`. -/
theorem single_active_actor_witness :
    (run (Widget.init defaultSliders) sampleEvents).mRenderer.card ≤ 1 ∧
    ((run (Widget.init defaultSliders) sampleEvents).mRenderer.Nonempty ↔
      (run (Widget.init defaultSliders) sampleEvents).mCurrentShapeActor.isSome = true) ∧
    (∀ id ∈ (run (Widget.init defaultSliders) sampleEvents).mRenderer,
      ∃ a, (run (Widget.init defaultSliders) sampleEvents).mCurrentShapeActor = some a ∧
        a.id = id) ∧
    (∀ a, (run (Widget.init defaultSliders) sampleEvents).mCurrentShapeActor = some a →
      (run (Widget.init defaultSliders) sampleEvents).mRenderer = {a.id}) :=
  single_active_actor (run (Widget.init defaultSliders) sampleEvents)
    ⟨defaultSliders, sampleEvents, rfl⟩

/-! ### The box widget callback -/

/-- The actor of `scaledPyramidWidget` is `scaledPyramidActor`. -/
theorem scaledPyramidWidget_actor :
    scaledPyramidWidget.mCurrentShapeActor = some scaledPyramidActor := by
  simp [scaledPyramidWidget, setScaleSlider, on_addButton_clicked,
    ShapeController.createShape, Widget.init,
    defaultSliders, on_scaleSlider_valueChanged, Widget.editActor, Actor.SetScale, scaleFactor,
    Actor.new, Actor.SetColor, scaledPyramidActor]
  norm_num

/-- World-space points of the scaled pyramid after `Execute` with the unit
translation along x. -/
theorem scaledPyramid_after_execute :
    (BoxWidgetCallback.Execute translateX scaledPyramidActor).worldPoints (fun _ => []) =
      some [⟨2, 0, 0⟩, ⟨10, 0, 0⟩, ⟨10, 8, 0⟩, ⟨2, 8, 0⟩, ⟨6, 4, 30⟩] := by
  simp [Actor.worldPoints, Actor.GetMatrix, rotationYMatrix, composeMatrix,
    BoxWidgetCallback.Execute, scaledPyramidActor, Pyramid.createShape, Pyramid.points,
    PolyData.points, Transform.apply, Vec3.dot, translateX]
  norm_num

/-- World-space points of the scaled pyramid before `Execute`, translated by
one unit along x. -/
theorem scaledPyramid_translated :
    (scaledPyramidActor.worldPoints (fun _ => [])).map (List.map translateX.apply) =
      some [⟨1, 0, 0⟩, ⟨9, 0, 0⟩, ⟨9, 8, 0⟩, ⟨1, 8, 0⟩, ⟨5, 4, 30⟩] := by
  simp [Actor.worldPoints, Actor.GetMatrix, rotationYMatrix, composeMatrix,
    scaledPyramidActor, Pyramid.createShape, Pyramid.points,
    PolyData.points, Transform.apply, Vec3.dot, translateX]
  norm_num

/-- C4 (counterexample): the pyramid scaled to factor 2 by the scale slider,
the handle translated by one unit along x.  The mesh's world-space points after
`Execute` are not the translated world-space points: the corner at the origin
ends at (2, 0, 0), not at (1, 0, 0). -/
theorem boxWidget_execute_not_world_transform :
    scaledPyramidWidget.mCurrentShapeActor = some scaledPyramidActor ∧
    (BoxWidgetCallback.Execute translateX scaledPyramidActor).worldPoints (fun _ => []) =
      some [⟨2, 0, 0⟩, ⟨10, 0, 0⟩, ⟨10, 8, 0⟩, ⟨2, 8, 0⟩, ⟨6, 4, 30⟩] ∧
    (scaledPyramidActor.worldPoints (fun _ => [])).map (List.map translateX.apply) =
      some [⟨1, 0, 0⟩, ⟨9, 0, 0⟩, ⟨9, 8, 0⟩, ⟨1, 8, 0⟩, ⟨5, 4, 30⟩] ∧
    (BoxWidgetCallback.Execute translateX scaledPyramidActor).worldPoints (fun _ => []) ≠
      (scaledPyramidActor.worldPoints (fun _ => [])).map (List.map translateX.apply) := by
  refine ⟨scaledPyramidWidget_actor, scaledPyramid_after_execute, scaledPyramid_translated, ?_⟩
  rw [scaledPyramid_after_execute, scaledPyramid_translated]
  simp

/-- An actor at position (0, 0, 0), scale (1, 1, 1) and a net rotation that is
a multiple of 360 degrees has the identity as its matrix. -/
theorem getMatrix_default (a : Actor) (hp : a.position = ⟨0, 0, 0⟩)
    (hs : a.scale = ⟨1, 1, 1⟩) (hr : a.rotationY % 360 = 0) :
    a.GetMatrix = some Transform.identity := by
  simp [Actor.GetMatrix, rotationYMatrix, composeMatrix, hp, hs, hr, Transform.identity]

/-- The identity transform fixes every point. -/
theorem Transform.identity_apply (p : Vec3) : Transform.identity.apply p = p := by
  simp [Transform.identity, Transform.apply, Vec3.dot]

/-- The flipped pyramid: all sliders are at their defaults, and a unit drag
along x moves the corner at the origin to (0, 0, -1), not to (1, 0, 0).  Slider
defaults alone do not make the actor's matrix the identity. -/
theorem flippedPyramid_after_execute :
    flippedPyramidWidget.mCurrentShapeActor = some flippedPyramidActor ∧
    flippedPyramidWidget.ui = defaultSliders ∧
    (BoxWidgetCallback.Execute translateX flippedPyramidActor).worldPoints (fun _ => []) =
      some [⟨0, 0, -1⟩, ⟨0, 0, -5⟩, ⟨0, 4, -5⟩, ⟨0, 4, -1⟩, ⟨15, 2, -3⟩] ∧
    (flippedPyramidActor.worldPoints (fun _ => [])).map (List.map translateX.apply) =
      some [⟨1, 0, 0⟩, ⟨1, 0, -4⟩, ⟨1, 4, -4⟩, ⟨1, 4, 0⟩, ⟨16, 2, -2⟩] := by
  refine ⟨by rfl, by rfl, ?_, ?_⟩
  · simp [Actor.worldPoints, Actor.GetMatrix, rotationYMatrix, composeMatrix,
      BoxWidgetCallback.Execute, flippedPyramidActor, Pyramid.createShape, Pyramid.points,
      PolyData.points, Transform.apply, Vec3.dot, translateX]
    norm_num
  · simp [Actor.worldPoints, Actor.GetMatrix, rotationYMatrix, composeMatrix,
      flippedPyramidActor, Pyramid.createShape, Pyramid.points,
      PolyData.points, Transform.apply, Vec3.dot, translateX]
    norm_num

/-- C4 (amended): for every actor, at any position, scale and angle, and every
transform `T`, `Execute` replaces the mesh by its image under `T` (every mesh
point `p` becomes `T p`) and changes nothing else of the actor: identity,
position, scale, orientation, colour, opacity and hence its matrix stay as they
were.  So with `M` the actor's matrix (for whatever matrix `R` its orientation
has) the world-space points after `Execute` are `M (T p)`; they are `T` applied
to the world-space points before whenever `M` commutes with `T`, in particular
for an actor at position (0, 0, 0), scale (1, 1, 1) and a net rotation that is
a multiple of 360 degrees. -/
theorem boxWidget_execute_transforms_polydata (tess : Source → List Vec3) (a : Actor)
    (T : Transform) :
    BoxWidgetCallback.Execute T a =
      { a with mapper := ⟨.transformed T a.mapper.input⟩ } ∧
    ((BoxWidgetCallback.Execute T a).id = a.id ∧
      (BoxWidgetCallback.Execute T a).position = a.position ∧
      (BoxWidgetCallback.Execute T a).scale = a.scale ∧
      (BoxWidgetCallback.Execute T a).rotationY = a.rotationY ∧
      (BoxWidgetCallback.Execute T a).color = a.color ∧
      (BoxWidgetCallback.Execute T a).opacity = a.opacity) ∧
    (BoxWidgetCallback.Execute T a).mapper.input.points tess =
      (a.mapper.input.points tess).map T.apply ∧
    (BoxWidgetCallback.Execute T a).GetMatrix = a.GetMatrix ∧
    (∀ R : Transform,
      (BoxWidgetCallback.Execute T a).worldPointsWith tess R =
        (a.mapper.input.points tess).map fun p =>
          (composeMatrix a.position a.scale R).apply (T.apply p)) ∧
    (∀ R : Transform,
      (∀ p, (composeMatrix a.position a.scale R).apply (T.apply p) =
        T.apply ((composeMatrix a.position a.scale R).apply p)) →
      (BoxWidgetCallback.Execute T a).worldPointsWith tess R =
        (a.worldPointsWith tess R).map T.apply) ∧
    (∀ M : Transform, a.GetMatrix = some M →
      (BoxWidgetCallback.Execute T a).worldPoints tess =
        some ((a.mapper.input.points tess).map fun p => M.apply (T.apply p))) ∧
    (∀ M : Transform, a.GetMatrix = some M →
      (∀ p, M.apply (T.apply p) = T.apply (M.apply p)) →
      (BoxWidgetCallback.Execute T a).worldPoints tess =
        (a.worldPoints tess).map (List.map T.apply)) ∧
    (a.position = ⟨0, 0, 0⟩ → a.scale = ⟨1, 1, 1⟩ → a.rotationY % 360 = 0 →
      (BoxWidgetCallback.Execute T a).worldPoints tess =
        (a.worldPoints tess).map (List.map T.apply)) := by
  have hG : (BoxWidgetCallback.Execute T a).GetMatrix = a.GetMatrix := rfl
  have hR : ∀ R : Transform,
      (BoxWidgetCallback.Execute T a).worldPointsWith tess R =
        (a.mapper.input.points tess).map fun p =>
          (composeMatrix a.position a.scale R).apply (T.apply p) := by
    intro R
    simp [Actor.worldPointsWith, BoxWidgetCallback.Execute, PolyData.points, List.map_map,
      Function.comp_def]
  have hw : ∀ M : Transform, a.GetMatrix = some M →
      (BoxWidgetCallback.Execute T a).worldPoints tess =
        some ((a.mapper.input.points tess).map fun p => M.apply (T.apply p)) := by
    intro M hM
    unfold Actor.worldPoints
    rw [hG, hM]
    simp [BoxWidgetCallback.Execute, PolyData.points, List.map_map, Function.comp_def]
  have hcomm : ∀ M : Transform, a.GetMatrix = some M →
      (∀ p, M.apply (T.apply p) = T.apply (M.apply p)) →
      (BoxWidgetCallback.Execute T a).worldPoints tess =
        (a.worldPoints tess).map (List.map T.apply) := by
    intro M hM hc
    rw [hw M hM]
    simp [Actor.worldPoints, hM, List.map_map, Function.comp_def, hc]
  refine ⟨rfl, ⟨rfl, rfl, rfl, rfl, rfl, rfl⟩, rfl, hG, hR, ?_, hw, hcomm, ?_⟩
  · intro R hc
    rw [hR R]
    simp [Actor.worldPointsWith, List.map_map, Function.comp_def, hc]
  · intro hp hs hr
    exact hcomm Transform.identity (getMatrix_default a hp hs hr)
      fun p => by simp [Transform.identity_apply]

/-- Witness of C4 (amended): the pyramid scaled to factor 2, the handle scaled
by 3 about the origin; the two maps commute and the world-space points after
`Execute` are the scaled world-space points.  The flipped pyramid (90 degrees)
under the same handle: its position, scale and angle are unchanged. -/
theorem boxWidget_execute_transforms_polydata_witness :
    (BoxWidgetCallback.Execute scaleBy3 scaledPyramidActor).worldPoints (fun _ => []) =
      (scaledPyramidActor.worldPoints (fun _ => [])).map (List.map scaleBy3.apply) ∧
    (BoxWidgetCallback.Execute scaleBy3 flippedPyramidActor).rotationY = 90 :=
  ⟨(boxWidget_execute_transforms_polydata (fun _ => []) scaledPyramidActor
      scaleBy3).2.2.2.2.2.2.2.1
    ⟨⟨2, 0, 0⟩, ⟨0, 2, 0⟩, ⟨0, 0, 2⟩, ⟨0, 0, 0⟩⟩
    (by simp [Actor.GetMatrix, rotationYMatrix, composeMatrix, scaledPyramidActor])
    (fun p => by
      simp only [Transform.apply, Vec3.dot, scaleBy3, Vec3.mk.injEq]
      refine ⟨?_, ?_, ?_⟩ <;> ring),
   (boxWidget_execute_transforms_polydata (fun _ => []) flippedPyramidActor
      scaleBy3).2.1.2.2.2.1⟩

/-! ### Slider defaults -/

/-- The add slot with a known shape name makes a new actor with the library
defaults and colour (0, 0, 0) the current one. -/
theorem addButton_actor (currentText : String) (m : PolyDataMapper) (w : Widget)
    (hc : ShapeController.createShape currentText = some m) :
    (on_addButton_clicked currentText w).mCurrentShapeActor =
      some ((Actor.new w.nextActor m).SetColor ⟨0, 0, 0⟩) := by
  unfold on_addButton_clicked
  rw [hc]
  cases ha : w.mCurrentShapeActor with
  | none => rfl
  | some old =>
    have hn := (reset_sliders_sameScene w).2.2.2.2.1
    simp [hn]

/-- C9: `reset_sliders` leaves rotate 0, scale 0, opacity 100, red, green and
blue 0 and x, y and z translate 0 in the sliders.  Under the slots these values
give scale (1, 1, 1), opacity 1, the colour components 0, the position
coordinates 0 and an unchanged orientation (a rotation by 0 degrees).  A shape
just added by the add slot, to any state (the first shape included), has
exactly these values (and angle 0), so each slot at its default value leaves
the state with the new shape as it is. -/
theorem reset_sliders_defaults_neutral (w : Widget) (currentText : String)
    (m : PolyDataMapper) (hc : ShapeController.createShape currentText = some m) :
    (reset_sliders w).ui =
      { rotateSlider := 0, scaleSlider := 0, opacitySlider := 100, redColorSlider := 0,
        greenColorSlider := 0, blueColorSlider := 0, xTranslateSlider := 0,
        yTranslateSlider := 0, zTranslateSlider := 0 } ∧
    (∀ a : Actor, w.mCurrentShapeActor = some a →
      (on_scaleSlider_valueChanged 0 w).mCurrentShapeActor =
        some { a with scale := ⟨1, 1, 1⟩ } ∧
      (on_opacitySlider_valueChanged 100 w).mCurrentShapeActor =
        some { a with opacity := 1 } ∧
      (on_blueColorSlider_valueChanged 0 (on_greenColorSlider_valueChanged 0
        (on_redColorSlider_valueChanged 0 w))).mCurrentShapeActor =
          some { a with color := ⟨0, 0, 0⟩ } ∧
      (on_zTranslateSlider_valueChanged 0 (on_yTranslateSlider_valueChanged 0
        (on_xTranslateSlider_valueChanged 0 w))).mCurrentShapeActor =
          some { a with position := ⟨0, 0, 0⟩ }) ∧
    on_rotateSlider_valueChanged 0 w = w ∧
    (∃ b, (on_addButton_clicked currentText w).mCurrentShapeActor = some b ∧
      b.scale = ⟨1, 1, 1⟩ ∧ b.opacity = 1 ∧ b.color = ⟨0, 0, 0⟩ ∧ b.position = ⟨0, 0, 0⟩ ∧
      b.rotationY = 0) ∧
    on_rotateSlider_valueChanged 0 (on_addButton_clicked currentText w) =
      on_addButton_clicked currentText w ∧
    on_scaleSlider_valueChanged 0 (on_addButton_clicked currentText w) =
      on_addButton_clicked currentText w ∧
    on_opacitySlider_valueChanged 100 (on_addButton_clicked currentText w) =
      on_addButton_clicked currentText w ∧
    on_redColorSlider_valueChanged 0 (on_addButton_clicked currentText w) =
      on_addButton_clicked currentText w ∧
    on_greenColorSlider_valueChanged 0 (on_addButton_clicked currentText w) =
      on_addButton_clicked currentText w ∧
    on_blueColorSlider_valueChanged 0 (on_addButton_clicked currentText w) =
      on_addButton_clicked currentText w ∧
    on_xTranslateSlider_valueChanged 0 (on_addButton_clicked currentText w) =
      on_addButton_clicked currentText w ∧
    on_yTranslateSlider_valueChanged 0 (on_addButton_clicked currentText w) =
      on_addButton_clicked currentText w ∧
    on_zTranslateSlider_valueChanged 0 (on_addButton_clicked currentText w) =
      on_addButton_clicked currentText w := by
  have hb := addButton_actor currentText m w hc
  have fix : ∀ f : Actor → Actor,
      f ((Actor.new w.nextActor m).SetColor ⟨0, 0, 0⟩) =
        (Actor.new w.nextActor m).SetColor ⟨0, 0, 0⟩ →
      (on_addButton_clicked currentText w).editActor f = on_addButton_clicked currentText w := by
    intro f hf
    rw [editActor_some f _ _ hb, hf, ← hb]
  refine ⟨reset_sliders_ui w, ?_, ?_, ⟨_, hb, rfl, rfl, rfl, rfl, rfl⟩,
    ?_, ?_, ?_, ?_, ?_, ?_, ?_, ?_, ?_⟩
  · intro a h
    refine ⟨?_, ?_, ?_, ?_⟩
    · simp [on_scaleSlider_valueChanged, Widget.editActor, h, Actor.SetScale, scaleFactor]
    · simp [on_opacitySlider_valueChanged, Widget.editActor, h, Actor.SetOpacity]
    · simp [on_redColorSlider_valueChanged, on_greenColorSlider_valueChanged,
        on_blueColorSlider_valueChanged, Widget.editActor, h, Actor.SetColor]
    · simp [on_xTranslateSlider_valueChanged, on_yTranslateSlider_valueChanged,
        on_zTranslateSlider_valueChanged, Widget.editActor, h, Actor.SetPosition]
  · cases h : w.mCurrentShapeActor with
    | none => simp [on_rotateSlider_valueChanged, Widget.editActor, h]
    | some a =>
      rw [on_rotateSlider_valueChanged, editActor_some _ w a h]
      have e : Actor.RotateY 0 a = a := by simp [Actor.RotateY]
      rw [e, ← h]
  · exact fix _ (by simp [Actor.RotateY, Actor.SetColor, Actor.new])
  · exact fix _ (by simp [Actor.SetScale, scaleFactor, Actor.SetColor, Actor.new])
  · exact fix _ (by simp [Actor.SetOpacity, Actor.SetColor, Actor.new])
  · exact fix _ (by simp [Actor.SetColor, Actor.new])
  · exact fix _ (by simp [Actor.SetColor, Actor.new])
  · exact fix _ (by simp [Actor.SetColor, Actor.new])
  · exact fix _ (by simp [Actor.SetPosition, Actor.SetColor, Actor.new])
  · exact fix _ (by simp [Actor.SetPosition, Actor.SetColor, Actor.new])
  · exact fix _ (by simp [Actor.SetPosition, Actor.SetColor, Actor.new])

/-- Witness of C9: the scaled pyramid widget, and a sphere added to it. -/
theorem reset_sliders_defaults_neutral_witness :
    (reset_sliders scaledPyramidWidget).ui = defaultSliders ∧
    (on_scaleSlider_valueChanged 0 scaledPyramidWidget).mCurrentShapeActor =
      some { scaledPyramidActor with scale := ⟨1, 1, 1⟩ } ∧
    on_scaleSlider_valueChanged 0 (on_addButton_clicked "Sphere" scaledPyramidWidget) =
      on_addButton_clicked "Sphere" scaledPyramidWidget := by
  have key := reset_sliders_defaults_neutral scaledPyramidWidget "Sphere"
    (Sphere.createShape ⟨5⟩) (by simp [ShapeController.createShape])
  exact ⟨key.1, (key.2.1 scaledPyramidActor scaledPyramidWidget_actor).1, key.2.2.2.2.2.1⟩

/-! ### The pyramid mesh -/

/-- A string with `suffix` appended ends with `suffix`, whatever the case
folding. -/
theorem endsWithCaseInsensitive_append (foldCase : Char → Char) (str suffix : String) :
    endsWithCaseInsensitive foldCase (str ++ suffix) suffix = true := by
  have hd : ((str ++ suffix).data.drop ((str ++ suffix).length - suffix.length)) =
      suffix.data := by
    rw [String.length_append, Nat.add_sub_cancel, String.data_append]
    exact List.drop_left str.data suffix.data
  unfold endsWithCaseInsensitive
  rw [hd, String.length_append]
  simp

/-- The fix-up appends ".stl" unless the path ends with it already. -/
theorem stlFileName_cases (foldCase : Char → Char) (filePath : String) :
    (endsWithCaseInsensitive foldCase filePath ".stl" = true →
      stlFileName foldCase filePath = filePath) ∧
    (endsWithCaseInsensitive foldCase filePath ".stl" = false →
      stlFileName foldCase filePath = filePath ++ ".stl") := by
  constructor <;> intro h <;> simp [stlFileName, h]

/-- The fixed-up name ends with ".stl", case-insensitively. -/
theorem stlFileName_endsWith (foldCase : Char → Char) (filePath : String) :
    endsWithCaseInsensitive foldCase (stlFileName foldCase filePath) ".stl" = true := by
  cases h : endsWithCaseInsensitive foldCase filePath ".stl" with
  | true => rw [(stlFileName_cases foldCase filePath).1 h, h]
  | false =>
    rw [(stlFileName_cases foldCase filePath).2 h]
    exact endsWithCaseInsensitive_append foldCase filePath ".stl"

/-- C12: with an active shape and a non-empty path from the save dialog, the
STL writer gets the fixed-up file name and the actor's mesh; that name ends
with ".stl" case-insensitively, is the chosen path itself when the path ends
with ".stl" in any letter case and the chosen path with ".stl" appended
otherwise, and the fix-up applied to it changes nothing.  With an empty path,
or without an active shape, nothing is written. -/
theorem onSaveSTL_fileName (foldCase : Char → Char) (filePath : String) (w : Widget)
    (a : Actor) (ha : w.mCurrentShapeActor = some a) (hne : filePath ≠ "") :
    onSaveSTL foldCase filePath w = some ⟨stlFileName foldCase filePath, a.mapper.input⟩ ∧
    endsWithCaseInsensitive foldCase (stlFileName foldCase filePath) ".stl" = true ∧
    (endsWithCaseInsensitive foldCase filePath ".stl" = true →
      stlFileName foldCase filePath = filePath) ∧
    (endsWithCaseInsensitive foldCase filePath ".stl" = false →
      stlFileName foldCase filePath = filePath ++ ".stl") ∧
    stlFileName foldCase (stlFileName foldCase filePath) = stlFileName foldCase filePath ∧
    onSaveSTL foldCase "" w = none ∧
    (∀ w0 : Widget, w0.mCurrentShapeActor = none → onSaveSTL foldCase filePath w0 = none) := by
  have hempty : filePath.isEmpty = false := by
    cases he : filePath.isEmpty with
    | false => rfl
    | true => exact absurd ((String.isEmpty_iff filePath).mp he) hne
  refine ⟨?_, stlFileName_endsWith foldCase filePath, (stlFileName_cases foldCase filePath).1,
    (stlFileName_cases foldCase filePath).2, ?_, ?_, ?_⟩
  · simp [onSaveSTL, ha, hempty]
  · exact (stlFileName_cases foldCase _).1 (stlFileName_endsWith foldCase filePath)
  · have he : "".isEmpty = true := by decide
    simp [onSaveSTL, ha, he]
  · intro w0 h0
    simp [onSaveSTL, h0]

/-- Witness of C12 on the cube widget with ASCII lower-casing as the case
folding: "out/cube" is written to "out/cube.stl", "out/cube.STL" is kept. -/
theorem onSaveSTL_fileName_witness :
    onSaveSTL Char.toLower "out/cube" cubeWidget =
      some ⟨"out/cube.stl", cubeActor.mapper.input⟩ ∧
    onSaveSTL Char.toLower "out/cube.STL" cubeWidget =
      some ⟨"out/cube.STL", cubeActor.mapper.input⟩ ∧
    endsWithCaseInsensitive Char.toLower "out/cube.STL" ".stl" = true ∧
    onSaveSTL Char.toLower "" cubeWidget = none := by
  have k1 := onSaveSTL_fileName Char.toLower "out/cube" cubeWidget cubeActor cubeWidget_actor
    (by decide)
  have k2 := onSaveSTL_fileName Char.toLower "out/cube.STL" cubeWidget cubeActor
    cubeWidget_actor (by decide)
  have e1 : endsWithCaseInsensitive Char.toLower "out/cube" ".stl" = false := by decide
  have e2 : endsWithCaseInsensitive Char.toLower "out/cube.STL" ".stl" = true := by decide
  refine ⟨?_, ?_, e2, k1.2.2.2.2.2.1⟩
  · rw [k1.1, k1.2.2.2.1 e1]
    rfl
  · rw [k2.1, k2.2.2.1 e2]

end ShapeEditor
